import Mathlib

/-!
Verification of the contribution classification and aggregation engine of the
peoples-scorecard repository (`fec_data_fetcher.py`), together with the
pagination loop of `FECDataFetcher.get_committee_receipts`.

Modelling conventions:
* Python floats are modelled as exact rationals (`ℚ`); Python `round(x, n)`
  is modelled as round-half-to-even at `n` decimal digits.
* A raw FEC record is a dictionary; the three fields the engine reads are
  modelled as optional dynamically-typed values (`Option PyVal`), so that a
  missing key, a JSON `null`, a number and a string are all representable.
* Python expressions that can raise (`float(...)`, `.upper()` on a non-string,
  `list[-1]` on an empty list) are modelled in `Except String`, with the
  exception type as the error message.
* String primitives (`str.upper`, `in`, `str.split()`) are modelled directly
  on character lists, restricted to ASCII case mapping as used by the data.
-/

namespace PeoplesScorecard

/-- ASCII uppercase of a string, modelling Python `str.upper()` on the
ASCII entity codes and contributor names the engine handles. -/
def pyUpper (s : String) : String := ⟨s.data.map Char.toUpper⟩

/-- Does the second list occur as a prefix of the first argument list? -/
def prefixMatch : List Char → List Char → Bool
  | [], _ => true
  | _ :: _, [] => false
  | p :: ps, c :: cs => p == c && prefixMatch ps cs

/-- Does `pat` occur as a contiguous sublist anywhere in the list? -/
def sublistSearch (pat : List Char) : List Char → Bool
  | [] => prefixMatch pat []
  | c :: cs => prefixMatch pat (c :: cs) || sublistSearch pat cs

/-- Python's substring test `pat in hay`. -/
def pyContains (hay pat : String) : Bool := sublistSearch pat.data hay.data

/-- Worker for `pySplit`: `acc` holds the reversed characters of the token
currently being read. -/
def splitWSGo : List Char → List Char → List String
  | acc, [] => if acc = [] then [] else [String.mk acc.reverse]
  | acc, c :: cs =>
    if c.isWhitespace then
      if acc = [] then splitWSGo [] cs
      else String.mk acc.reverse :: splitWSGo [] cs
    else splitWSGo (c :: acc) cs

/-- Python `str.split()` with no argument: split on runs of whitespace,
dropping empty tokens. -/
def pySplit (s : String) : List String := splitWSGo [] s.data

/-- Strip leading and trailing whitespace, as Python `float` does before
parsing a string argument. -/
def trimWS (l : List Char) : List Char :=
  ((l.dropWhile Char.isWhitespace).reverse.dropWhile Char.isWhitespace).reverse

/-- Decimal digits to a natural number. -/
def digitsToNat (l : List Char) : ℕ :=
  l.foldl (fun n c => 10 * n + (c.toNat - 48)) 0

/-- Parse a plain decimal literal (optional sign, digits, optional fraction)
the way Python `float(str)` accepts it; scientific notation and the special
float spellings are not needed by any claim and are rejected. -/
def parseDecimal? (s : String) : Option ℚ :=
  let cs := trimWS s.data
  let signAndRest : ℚ × List Char :=
    match cs with
    | '-' :: rest => (-1, rest)
    | '+' :: rest => (1, rest)
    | _ => (1, cs)
  let sign := signAndRest.1
  let cs := signAndRest.2
  let intPart := cs.takeWhile Char.isDigit
  let rest := cs.dropWhile Char.isDigit
  match rest with
  | [] => if intPart = [] then none else some (sign * digitsToNat intPart)
  | '.' :: frac =>
    if frac.all Char.isDigit ∧ (intPart ≠ [] ∨ frac ≠ []) then
      some (sign * ((digitsToNat intPart : ℚ) +
        (digitsToNat frac : ℚ) / (10 ^ frac.length)))
    else none
  | _ => none

/-- A dynamically-typed JSON-ish value as stored in a raw FEC record dict:
a number, a string, or `null` (Python `None`). -/
inductive PyVal where
  | vnum (q : ℚ)
  | vstr (s : String)
  | vnull
deriving DecidableEq

/-- A raw contribution record: the three keys `calculate_big_money_percentage`
reads, each possibly absent from the dictionary. -/
structure Receipt where
  contribution_receipt_amount : Option PyVal := none
  entity_type : Option PyVal := none
  contributor_name : Option PyVal := none
deriving DecidableEq

/-- Python `float(v)`: numbers pass through, strings are parsed, anything
else raises `TypeError`. -/
def pyFloat : PyVal → Except String ℚ
  | .vnum q => .ok q
  | .vstr s =>
    match parseDecimal? s with
    | some q => .ok q
    | none => .error "ValueError: could not convert string to float"
  | .vnull => .error "TypeError: float() argument must be a string or a real number"

/-- Python `v.upper()`: defined on strings, raises `AttributeError` on any
other value. -/
def pyUpperVal : PyVal → Except String String
  | .vstr s => .ok (pyUpper s)
  | .vnum _ => .error "AttributeError: object has no attribute upper"
  | .vnull => .error "AttributeError: object has no attribute upper"

/-- Python `l[-1]`: last element of a list, `IndexError` when empty. -/
def pyLastIndex (l : List String) : Except String String :=
  match l.getLast? with
  | some s => .ok s
  | none => .error "IndexError: list index out of range"

/-- The first three statements of the loop body of
`calculate_big_money_percentage`:
`amount = float(receipt.get('contribution_receipt_amount', 0))`,
`entity_type = receipt.get('entity_type', '').upper()`,
`contributor_name = receipt.get('contributor_name', '').upper()`. -/
def readReceipt (receipt : Receipt) : Except String (ℚ × String × String) :=
  match pyFloat (receipt.contribution_receipt_amount.getD (.vnum 0)) with
  | .error e => .error e
  | .ok amount =>
    match pyUpperVal (receipt.entity_type.getD (.vstr "")) with
    | .error e => .error e
    | .ok entity_type =>
      match pyUpperVal (receipt.contributor_name.getD (.vstr "")) with
      | .error e => .error e
      | .ok contributor_name => .ok (amount, entity_type, contributor_name)

/-- The nine category accumulators of `calculate_big_money_percentage`,
in the source's dict insertion order. -/
structure Breakdown where
  pacs : ℚ
  party_committees : ℚ
  other_candidates : ℚ
  organizations : ℚ
  large_individual_donors : ℚ
  small_individual_donors : ℚ
  self_funding : ℚ
  conduits : ℚ
  unknown : ℚ
deriving DecidableEq

/-- The zero-initialised breakdown dict. -/
def Breakdown.start : Breakdown := ⟨0, 0, 0, 0, 0, 0, 0, 0, 0⟩

/-- `conduits = ['ACTBLUE', 'WINRED', 'ACT BLUE', 'WIN RED']`. -/
def conduitNames : List String := ["ACTBLUE", "WINRED", "ACT BLUE", "WIN RED"]

/-- `any(conduit in contributor_name for conduit in conduits)`. -/
def isConduit (contributor_name : String) : Bool :=
  conduitNames.any (fun c => pyContains contributor_name c)

/-- The entity-type dispatch chain at the end of the loop body
(`if entity_type == 'PAC': ... else: breakdown['unknown'] += amount`). -/
def classifyEntity (b : Breakdown) (entity_type : String) (amount : ℚ) : Breakdown :=
  if entity_type = "PAC" then { b with pacs := b.pacs + amount }
  else if entity_type = "PTY" then
    { b with party_committees := b.party_committees + amount }
  else if entity_type = "CCM" then
    { b with other_candidates := b.other_candidates + amount }
  else if entity_type = "ORG" then
    { b with organizations := b.organizations + amount }
  else if entity_type = "IND" then
    if amount ≥ 200 then
      { b with large_individual_donors := b.large_individual_donors + amount }
    else
      { b with small_individual_donors := b.small_individual_donors + amount }
  else { b with unknown := b.unknown + amount }

/-- One iteration of the `for receipt in receipts` loop of
`calculate_big_money_percentage`: read the three fields, skip non-positive
amounts, then conduit check, then (under `if candidate_name:`) the
self-funding check, then entity-type dispatch. -/
def processReceipt (candidate_name : String) (b : Breakdown) (receipt : Receipt) :
    Except String Breakdown :=
  match readReceipt receipt with
  | .error e => .error e
  | .ok (amount, entity_type, contributor_name) =>
    if amount ≤ 0 then .ok b
    else if isConduit contributor_name then
      .ok { b with conduits := b.conduits + amount }
    else if candidate_name ≠ "" then
      match pyLastIndex (pySplit candidate_name) with
      | .error e => .error e
      | .ok tok =>
        if pyContains contributor_name (pyUpper tok) ∨ entity_type = "CAN" then
          .ok { b with self_funding := b.self_funding + amount }
        else .ok (classifyEntity b entity_type amount)
    else .ok (classifyEntity b entity_type amount)

/-- The whole `for receipt in receipts` loop. -/
def processReceipts (candidate_name : String) :
    Breakdown → List Receipt → Except String Breakdown
  | b, [] => .ok b
  | b, r :: rs =>
    match processReceipt candidate_name b r with
    | .error e => .error e
    | .ok b2 => processReceipts candidate_name b2 rs

/-- `total_raised = sum(breakdown.values())`. -/
def Breakdown.totalRaised (b : Breakdown) : ℚ :=
  b.pacs + b.party_committees + b.other_candidates + b.organizations +
    b.large_individual_donors + b.small_individual_donors + b.self_funding +
    b.conduits + b.unknown

/-- `big_money = pacs + party_committees + other_candidates + organizations +
large_individual_donors`. -/
def Breakdown.bigMoney (b : Breakdown) : ℚ :=
  b.pacs + b.party_committees + b.other_candidates + b.organizations +
    b.large_individual_donors

/-- `grassroots_total = small_individual_donors + conduits`. -/
def Breakdown.grassroots (b : Breakdown) : ℚ :=
  b.small_individual_donors + b.conduits

/-- Round a rational to the nearest integer, ties to even (the rounding rule
of Python `round`). -/
def roundHalfEven (q : ℚ) : ℤ :=
  if q - ⌊q⌋ < 1 / 2 then ⌊q⌋
  else if 1 / 2 < q - ⌊q⌋ then ⌊q⌋ + 1
  else if ⌊q⌋ % 2 = 0 then ⌊q⌋ else ⌊q⌋ + 1

/-- Python `round(q, nd)` for `nd ≥ 0`, on exact rationals. -/
def pyRound (q : ℚ) (nd : ℕ) : ℚ :=
  (roundHalfEven (q * 10 ^ nd) : ℚ) / 10 ^ nd

/-- One `{'amount': ..., 'percentage': ...}` entry of the returned
`breakdown` dict. -/
structure CategoryEntry where
  amount : ℚ
  percentage : ℚ
deriving DecidableEq

/-- The dictionary returned by `calculate_big_money_percentage`.  The nested
`breakdown` dict is kept as an association list in the source's key order. -/
structure AnalysisResult where
  big_money_percentage : ℚ
  total_raised : ℚ
  big_money_amount : ℚ
  grassroots_amount : ℚ
  self_funding_amount : ℚ
  total_receipts : ℕ
  breakdown : List (String × CategoryEntry)
deriving DecidableEq

/-- The totals, percentage computations and the return-dict literal of
`calculate_big_money_percentage` (everything after the loop).  Per-category
percentages follow the source: computed against `total_raised` when it is
positive, and `0` for every category otherwise. -/
def buildResult (b : Breakdown) (numReceipts : ℕ) : AnalysisResult :=
  let total_raised := b.totalRaised
  let big_money := b.bigMoney
  let grassroots_total := b.grassroots
  let countable_total := total_raised - b.self_funding
  let big_money_percentage :=
    if countable_total > 0 then pyRound (big_money / countable_total * 100) 1
    else 0
  let pct := fun v : ℚ =>
    if total_raised > 0 then pyRound (v / total_raised * 100) 1 else 0
  { big_money_percentage := big_money_percentage
    total_raised := pyRound total_raised 2
    big_money_amount := pyRound big_money 2
    grassroots_amount := pyRound grassroots_total 2
    self_funding_amount := pyRound b.self_funding 2
    total_receipts := numReceipts
    breakdown := [
      ("pacs", ⟨pyRound b.pacs 2, pct b.pacs⟩),
      ("party_committees", ⟨pyRound b.party_committees 2, pct b.party_committees⟩),
      ("other_candidates", ⟨pyRound b.other_candidates 2, pct b.other_candidates⟩),
      ("organizations", ⟨pyRound b.organizations 2, pct b.organizations⟩),
      ("large_individual_donors",
        ⟨pyRound b.large_individual_donors 2, pct b.large_individual_donors⟩),
      ("small_individual_donors",
        ⟨pyRound b.small_individual_donors 2, pct b.small_individual_donors⟩),
      ("self_funding", ⟨pyRound b.self_funding 2, pct b.self_funding⟩),
      ("conduits", ⟨pyRound b.conduits 2, pct b.conduits⟩),
      ("grassroots_combined",
        ⟨pyRound grassroots_total 2,
          pyRound (if total_raised > 0 then grassroots_total / total_raised * 100
            else 0) 1⟩)] }

/-- `calculate_big_money_percentage(receipts, candidate_name='')`. -/
def calculate_big_money_percentage (receipts : List Receipt)
    (candidate_name : String := "") : Except String AnalysisResult :=
  match processReceipts candidate_name Breakdown.start receipts with
  | .error e => .error e
  | .ok b => .ok (buildResult b receipts.length)

/-- The amount a record contributes to the accumulators: its parsed amount
when positive, `0` when non-positive or unreadable. -/
def posAmount (r : Receipt) : ℚ :=
  match readReceipt r with
  | .ok (a, _, _) => if 0 < a then a else 0
  | .error _ => 0

/-- All nine accumulators are non-negative. -/
def Breakdown.Nonneg (b : Breakdown) : Prop :=
  0 ≤ b.pacs ∧ 0 ≤ b.party_committees ∧ 0 ≤ b.other_candidates ∧
    0 ≤ b.organizations ∧ 0 ≤ b.large_individual_donors ∧
    0 ≤ b.small_individual_donors ∧ 0 ≤ b.self_funding ∧ 0 ≤ b.conduits ∧
    0 ≤ b.unknown

/-- One JSON page of the `schedules/schedule_a` endpoint, as consumed by the
paging loop: the `results` list and `pagination.pages`. -/
structure Page where
  results : List Receipt
  pages : ℕ
deriving DecidableEq

/-- Python truthiness of the `max_pages` argument (`None` and `0` are falsy,
so both mean "no page cap"). -/
def truthyMaxPages : Option ℕ → Bool
  | none => false
  | some m => m != 0

/-- The `while True` paging loop of `FECDataFetcher.get_committee_receipts`,
with the transport call abstracted as `fetch page` (`.error` standing for a
timeout or request error surviving the transport retries) and an explicit
fuel bound for the unbounded loop.  It breaks on the page cap, on a fetch
failure, on an empty `results` list, and once `page >= pagination.pages`. -/
def get_committee_receipts_loop (fetch : ℕ → Except String Page)
    (max_pages : Option ℕ) : ℕ → ℕ → List Receipt → List Receipt
  | 0, _, acc => acc
  | fuel + 1, page, acc =>
    if truthyMaxPages max_pages = true ∧ page > max_pages.getD 0 then acc
    else
      match fetch page with
      | .error _ => acc
      | .ok data =>
        if data.results = [] then acc
        else if page ≥ data.pages then acc ++ data.results
        else get_committee_receipts_loop fetch max_pages fuel (page + 1)
          (acc ++ data.results)

/-- `get_committee_receipts`: run the paging loop from page 1 with an empty
accumulator. -/
def get_committee_receipts (fetch : ℕ → Except String Page)
    (max_pages : Option ℕ) (fuel : ℕ) : List Receipt :=
  get_committee_receipts_loop fetch max_pages fuel 1 []

/-! ### Helper lemmas -/

lemma classifyEntity_totalRaised (b : Breakdown) (e : String) (a : ℚ) :
    (classifyEntity b e a).totalRaised = b.totalRaised + a := by
  unfold classifyEntity
  split_ifs <;> simp [Breakdown.totalRaised] <;> ring

lemma classifyEntity_nonneg (b : Breakdown) (e : String) (a : ℚ) (ha : 0 ≤ a)
    (hb : b.Nonneg) : (classifyEntity b e a).Nonneg := by
  obtain ⟨n1, n2, n3, n4, n5, n6, n7, n8, n9⟩ := hb
  unfold classifyEntity
  split_ifs <;> simp only [Breakdown.Nonneg] <;>
    refine ⟨?_, ?_, ?_, ?_, ?_, ?_, ?_, ?_, ?_⟩ <;> (try simp) <;> linarith

lemma start_nonneg : Breakdown.start.Nonneg := by
  simp [Breakdown.start, Breakdown.Nonneg]

lemma start_totalRaised : Breakdown.start.totalRaised = 0 := by
  simp [Breakdown.start, Breakdown.totalRaised]

lemma processReceipt_shape {name : String} {b b' : Breakdown} {r : Receipt}
    (h : processReceipt name b r = .ok b') :
    b'.totalRaised = b.totalRaised + posAmount r ∧ (b.Nonneg → b'.Nonneg) := by
  cases hr : readReceipt r with
  | error e => simp [processReceipt, hr] at h
  | ok t =>
    obtain ⟨a, e, n⟩ := t
    have hp : posAmount r = if 0 < a then a else 0 := by simp [posAmount, hr]
    simp only [processReceipt, hr] at h
    by_cases h1 : a ≤ 0
    · rw [if_pos h1] at h
      simp only [Except.ok.injEq] at h
      subst h
      rw [hp, if_neg (not_lt.mpr h1), add_zero]
      exact ⟨rfl, id⟩
    · have ha : 0 < a := not_le.mp h1
      rw [if_neg h1] at h
      rw [hp, if_pos ha]
      by_cases h2 : isConduit n = true
      · rw [if_pos h2] at h
        simp only [Except.ok.injEq] at h
        subst h
        refine ⟨by simp [Breakdown.totalRaised]; ring, fun hn => ?_⟩
        obtain ⟨n1, n2, n3, n4, n5, n6, n7, n8, n9⟩ := hn
        simp only [Breakdown.Nonneg]
        refine ⟨?_, ?_, ?_, ?_, ?_, ?_, ?_, ?_, ?_⟩ <;> (try simp) <;> linarith
      · rw [if_neg h2] at h
        by_cases h3 : name ≠ ""
        · rw [if_pos h3] at h
          cases hlast : pyLastIndex (pySplit name) with
          | error e2 => rw [hlast] at h; simp at h
          | ok tok =>
            rw [hlast] at h
            simp only at h
            by_cases h4 : pyContains n (pyUpper tok) = true ∨ e = "CAN"
            · rw [if_pos h4] at h
              simp only [Except.ok.injEq] at h
              subst h
              refine ⟨by simp [Breakdown.totalRaised]; ring, fun hn => ?_⟩
              obtain ⟨n1, n2, n3, n4, n5, n6, n7, n8, n9⟩ := hn
              simp only [Breakdown.Nonneg]
              refine ⟨?_, ?_, ?_, ?_, ?_, ?_, ?_, ?_, ?_⟩ <;> (try simp) <;> linarith
            · rw [if_neg h4] at h
              simp only [Except.ok.injEq] at h
              subst h
              exact ⟨classifyEntity_totalRaised b e a,
                classifyEntity_nonneg b e a ha.le⟩
        · rw [if_neg h3] at h
          simp only [Except.ok.injEq] at h
          subst h
          exact ⟨classifyEntity_totalRaised b e a, classifyEntity_nonneg b e a ha.le⟩

lemma processReceipts_shape {name : String} (rs : List Receipt) :
    ∀ b b' : Breakdown, processReceipts name b rs = .ok b' →
      b'.totalRaised = b.totalRaised + (rs.map posAmount).sum ∧
        (b.Nonneg → b'.Nonneg) := by
  induction rs with
  | nil =>
    intro b b' h
    simp only [processReceipts, Except.ok.injEq] at h
    subst h
    simp
  | cons r rs ih =>
    intro b b' h
    simp only [processReceipts] at h
    cases hp : processReceipt name b r with
    | error e => rw [hp] at h; simp at h
    | ok b2 =>
      rw [hp] at h
      simp only at h
      obtain ⟨ht, hn⟩ := processReceipt_shape hp
      obtain ⟨ht2, hn2⟩ := ih b2 b' h
      refine ⟨?_, fun h0 => hn2 (hn h0)⟩
      rw [ht2, ht]
      simp [List.sum_cons]
      ring

lemma roundHalfEven_bounds (q : ℚ) (M : ℤ) (h0 : 0 ≤ q) (hM : q ≤ M) :
    0 ≤ roundHalfEven q ∧ roundHalfEven q ≤ M := by
  unfold roundHalfEven
  have hf0 : 0 ≤ ⌊q⌋ := Int.floor_nonneg.mpr h0
  have hfM : ⌊q⌋ ≤ M := by
    have h := Int.floor_le_floor hM
    simpa using h
  have hle : (⌊q⌋ : ℚ) ≤ q := Int.floor_le q
  split_ifs with h1 h2 h3
  · exact ⟨hf0, hfM⟩
  · refine ⟨by omega, ?_⟩
    have hq : (⌊q⌋ : ℚ) + 1 / 2 < q := by linarith
    have hlt : (⌊q⌋ : ℚ) < (M : ℚ) := by linarith
    have : ⌊q⌋ < M := by exact_mod_cast hlt
    omega
  · exact ⟨hf0, hfM⟩
  · refine ⟨by omega, ?_⟩
    have hhalf : q - ⌊q⌋ = 1 / 2 := le_antisymm (not_lt.mp h2) (not_lt.mp h1)
    have hlt : (⌊q⌋ : ℚ) < (M : ℚ) := by linarith
    have : ⌊q⌋ < M := by exact_mod_cast hlt
    omega

lemma pyRound1_bounds (q : ℚ) (h0 : 0 ≤ q) (h100 : q ≤ 100) :
    0 ≤ pyRound q 1 ∧ pyRound q 1 ≤ 100 := by
  have h := roundHalfEven_bounds (q * 10 ^ 1) 1000 (by positivity)
    (by push_cast; nlinarith)
  have hlo : (0 : ℚ) ≤ (roundHalfEven (q * 10 ^ 1) : ℚ) := by exact_mod_cast h.1
  have hhi : (roundHalfEven (q * 10 ^ 1) : ℚ) ≤ 1000 := by exact_mod_cast h.2
  unfold pyRound
  constructor
  · exact div_nonneg hlo (by positivity)
  · rw [div_le_iff₀ (by norm_num : (0 : ℚ) < 10 ^ 1)]
    have h10 : (100 : ℚ) * 10 ^ 1 = 1000 := by norm_num
    rw [h10]
    exact hhi

lemma processReceipt_ok {name : String} (hname : name = "" ∨ pySplit name ≠ [])
    (b : Breakdown) (r : Receipt) (hr : ∃ x, readReceipt r = .ok x) :
    ∃ b', processReceipt name b r = .ok b' := by
  obtain ⟨⟨a, e, n⟩, hx⟩ := hr
  simp only [processReceipt, hx]
  by_cases h1 : a ≤ 0
  · exact ⟨b, by rw [if_pos h1]⟩
  · rw [if_neg h1]
    by_cases h2 : isConduit n = true
    · exact ⟨_, by rw [if_pos h2]⟩
    · rw [if_neg h2]
      by_cases h3 : name ≠ ""
      · rw [if_pos h3]
        obtain ⟨tok, htok⟩ : ∃ tok, pyLastIndex (pySplit name) = .ok tok := by
          rcases hname with hname | hname
          · exact absurd hname h3
          · unfold pyLastIndex
            rw [List.getLast?_eq_getLast_of_ne_nil hname]
            exact ⟨_, rfl⟩
        rw [htok]
        simp only
        by_cases h4 : pyContains n (pyUpper tok) = true ∨ e = "CAN"
        · exact ⟨_, by rw [if_pos h4]⟩
        · exact ⟨_, by rw [if_neg h4]⟩
      · rw [if_neg h3]
        exact ⟨_, rfl⟩

lemma processReceipts_ok {name : String} (hname : name = "" ∨ pySplit name ≠ [])
    (rs : List Receipt) :
    ∀ b : Breakdown, (∀ r ∈ rs, ∃ x, readReceipt r = .ok x) →
      ∃ b', processReceipts name b rs = .ok b' := by
  induction rs with
  | nil => exact fun b _ => ⟨b, rfl⟩
  | cons r rs ih =>
    intro b hwt
    obtain ⟨b2, hb2⟩ := processReceipt_ok hname b r (hwt r (List.mem_cons_self r rs))
    obtain ⟨b', hb'⟩ := ih b2 (fun x hx => hwt x (List.mem_cons_of_mem r hx))
    refine ⟨b', ?_⟩
    simp only [processReceipts, hb2]
    exact hb'

/-! ### Concrete example records used by the witnesses -/

/-- Example record: a 500-dollar PAC contribution. -/
def recPAC : Receipt :=
  ⟨some (.vnum 500), some (.vstr "PAC"), some (.vstr "Big Pac")⟩

/-- The accumulator state after processing `recPAC` alone. -/
def bPAC : Breakdown := ⟨500, 0, 0, 0, 0, 0, 0, 0, 0⟩

lemma recPAC_processed :
    processReceipts "" Breakdown.start [recPAC] = .ok bPAC := by
  have h1 : readReceipt recPAC = .ok (500, "PAC", "BIG PAC") := by rfl
  have h2 : isConduit "BIG PAC" = false := by decide
  simp [processReceipts, processReceipt, h1, h2, classifyEntity,
    Breakdown.start, bPAC]
  norm_num

lemma recPAC_calc :
    calculate_big_money_percentage [recPAC] "" = .ok (buildResult bPAC 1) := by
  unfold calculate_big_money_percentage
  rw [recPAC_processed]
  rfl

/-- Example record: a 25-dollar refund (negative amount). -/
def negRec : Receipt := ⟨some (.vnum (-25)), some (.vstr "IND"), none⟩

/-- Example record matching both the conduit and the self-funding conditions
for candidate "Elizabeth Warren". -/
def recConduitSelf : Receipt :=
  ⟨some (.vnum 50), some (.vstr "CAN"), some (.vstr "Warren ActBlue")⟩

/-! ### Claim theorems -/

/-- Claim C1: whenever the classification loop succeeds with final
accumulators `b`, `calculate_big_money_percentage` returns a result whose
`big_money_percentage` is `round(big_money / countable_total * 100, 1)` if
`countable_total > 0` and `0` otherwise, where `big_money` is the sum of the
pacs, party_committees, other_candidates, organizations and
large_individual_donors accumulators and `countable_total` is `total_raised`
minus `self_funding` (conduits, small donors and unknown stay in the
denominator). -/
theorem big_money_percentage_formula (receipts : List Receipt) (name : String)
    (b : Breakdown)
    (hb : processReceipts name Breakdown.start receipts = .ok b) :
    ∃ res, calculate_big_money_percentage receipts name = .ok res ∧
      res.big_money_percentage =
        if b.totalRaised - b.self_funding > 0 then
          pyRound ((b.pacs + b.party_committees + b.other_candidates +
            b.organizations + b.large_individual_donors) /
            (b.totalRaised - b.self_funding) * 100) 1
        else 0 := by
  refine ⟨buildResult b receipts.length, ?_, ?_⟩
  · unfold calculate_big_money_percentage
    rw [hb]
  · simp only [buildResult, Breakdown.bigMoney]

/-- Witness for C1 at a single 500-dollar PAC record. -/
theorem big_money_percentage_formula_witness :
    ∃ res, calculate_big_money_percentage [recPAC] "" = .ok res ∧
      res.big_money_percentage =
        if bPAC.totalRaised - bPAC.self_funding > 0 then
          pyRound ((bPAC.pacs + bPAC.party_committees + bPAC.other_candidates +
            bPAC.organizations + bPAC.large_individual_donors) /
            (bPAC.totalRaised - bPAC.self_funding) * 100) 1
        else 0 :=
  big_money_percentage_formula [recPAC] "" bPAC recPAC_processed

/-- Claim C2: when the classification loop succeeds, the sum of the nine
category accumulators equals the sum of the positive amounts of the input
records (each positive-amount record is counted exactly once, none is
dropped or double counted), and `total_raised` is exactly that nine-way
sum. -/
theorem category_sum_closure (receipts : List Receipt) (name : String)
    (b : Breakdown)
    (hb : processReceipts name Breakdown.start receipts = .ok b) :
    b.pacs + b.party_committees + b.other_candidates + b.organizations +
        b.large_individual_donors + b.small_individual_donors +
        b.self_funding + b.conduits + b.unknown =
        (receipts.map posAmount).sum ∧
      b.totalRaised = b.pacs + b.party_committees + b.other_candidates +
        b.organizations + b.large_individual_donors +
        b.small_individual_donors + b.self_funding + b.conduits + b.unknown := by
  have h := (processReceipts_shape receipts Breakdown.start b hb).1
  rw [start_totalRaised, zero_add] at h
  exact ⟨h, rfl⟩

/-- Witness for C2 at a single 500-dollar PAC record. -/
theorem category_sum_closure_witness :
    bPAC.pacs + bPAC.party_committees + bPAC.other_candidates +
        bPAC.organizations + bPAC.large_individual_donors +
        bPAC.small_individual_donors + bPAC.self_funding + bPAC.conduits +
        bPAC.unknown = ([recPAC].map posAmount).sum ∧
      bPAC.totalRaised = bPAC.pacs + bPAC.party_committees +
        bPAC.other_candidates + bPAC.organizations +
        bPAC.large_individual_donors + bPAC.small_individual_donors +
        bPAC.self_funding + bPAC.conduits + bPAC.unknown :=
  category_sum_closure [recPAC] "" bPAC recPAC_processed

/-- Claim C3: a record whose uppercased contributor name contains a conduit
substring and whose amount is positive is classified into the `conduits`
accumulator, whatever the candidate name and entity type — in particular
even when the self-funding conditions also hold, because the conduit check
strictly precedes the self-funding check. -/
theorem conduit_precedes_self_funding (name : String) (b : Breakdown)
    (r : Receipt) (a : ℚ) (e n : String)
    (hr : readReceipt r = .ok (a, e, n)) (ha : 0 < a)
    (hc : isConduit n = true) :
    processReceipt name b r = .ok { b with conduits := b.conduits + a } := by
  simp only [processReceipt, hr]
  rw [if_neg (not_le.mpr ha), if_pos hc]

/-- Witness for C3: a record that matches the conduit substrings and both
self-funding conditions (name contains "WARREN", entity type `CAN`) still
lands in `conduits`. -/
theorem conduit_precedes_self_funding_witness :
    processReceipt "Elizabeth Warren" Breakdown.start recConduitSelf =
      .ok { Breakdown.start with conduits := Breakdown.start.conduits + 50 } :=
  conduit_precedes_self_funding "Elizabeth Warren" Breakdown.start
    recConduitSelf 50 "CAN" "WARREN ACTBLUE" (by rfl) (by norm_num) (by decide)

/-- Claim C5: a record whose parsed amount is not positive is discarded
before any classification: the loop step leaves every accumulator unchanged,
processing the list with or without the record gives the same accumulators
(hence the same totals and percentages, which are functions of the final
accumulators), and the record's contributed amount is zero. -/
theorem nonpositive_amounts_discarded (name : String) (b : Breakdown)
    (r : Receipt) (a : ℚ) (e n : String) (rs : List Receipt)
    (hr : readReceipt r = .ok (a, e, n)) (ha : a ≤ 0) :
    processReceipt name b r = .ok b ∧
      processReceipts name b (r :: rs) = processReceipts name b rs ∧
      posAmount r = 0 := by
  have h1 : processReceipt name b r = .ok b := by
    simp only [processReceipt, hr]
    rw [if_pos ha]
  refine ⟨h1, ?_, ?_⟩
  · simp only [processReceipts, h1]
  · simp [posAmount, hr, not_lt.mpr ha]

/-- Witness for C5 at a minus-25-dollar refund record. -/
theorem nonpositive_amounts_discarded_witness :
    processReceipt "" Breakdown.start negRec = .ok Breakdown.start ∧
      processReceipts "" Breakdown.start [negRec] =
        processReceipts "" Breakdown.start [] ∧
      posAmount negRec = 0 :=
  nonpositive_amounts_discarded "" Breakdown.start negRec (-25) "IND" "" []
    (by rfl) (by norm_num)

/-- Claim C10: the `total_receipts` field of a successful result equals the
length of the input list — every input record is counted, including those
with non-positive amounts that are excluded from all monetary totals. -/
theorem total_receipts_counts_all (receipts : List Receipt) (name : String)
    (res : AnalysisResult)
    (hres : calculate_big_money_percentage receipts name = .ok res) :
    res.total_receipts = receipts.length := by
  unfold calculate_big_money_percentage at hres
  cases hp : processReceipts name Breakdown.start receipts with
  | error e => rw [hp] at hres; simp at hres
  | ok b =>
    rw [hp] at hres
    simp only [Except.ok.injEq] at hres
    subst hres
    rfl

/-- Witness for C10 at a single 500-dollar PAC record. -/
theorem total_receipts_counts_all_witness :
    (buildResult bPAC 1).total_receipts = [recPAC].length :=
  total_receipts_counts_all [recPAC] "" (buildResult bPAC 1) recPAC_calc

/-- Example record with entity type `CAN` and no conduit match, used by the
C4 claims. -/
def recCAN : Receipt :=
  ⟨some (.vnum 100), some (.vstr "CAN"), some (.vstr "John Smith")⟩

/-- Example record with an unrecognised entity type, used by the C6 claims. -/
def recXYZ : Receipt :=
  ⟨some (.vnum 100), some (.vstr "XYZ"), some (.vstr "Someone")⟩

/-- The accumulator state after processing `recXYZ` alone: its amount lands
in `unknown`. -/
def bXYZ : Breakdown := ⟨0, 0, 0, 0, 0, 0, 0, 0, 100⟩

lemma recXYZ_processed :
    processReceipts "" Breakdown.start [recXYZ] = .ok bXYZ := by
  have h1 : readReceipt recXYZ = .ok (100, "XYZ", "SOMEONE") := by rfl
  have h2 : isConduit "SOMEONE" = false := by decide
  simp [processReceipts, processReceipt, h1, h2, classifyEntity,
    Breakdown.start, bXYZ]
  norm_num

/-- A record whose `contribution_receipt_amount` key holds `None`, on which
Python `float` raises. -/
def recNullAmount : Receipt := ⟨some .vnull, none, none⟩

/-- Counterexample to C4 as stated: the candidate name `" "` is non-empty
and the record has entity type `CAN`, a positive amount and no conduit
match, yet it is not classified as self-funding — `candidate_name.split()[-1]`
raises `IndexError` on a whitespace-only name, so the whole call fails
instead. -/
theorem self_funding_guard_scope_cex :
    (" " : String) ≠ "" ∧
      calculate_big_money_percentage [recCAN] " " =
        .error "IndexError: list index out of range" := by
  refine ⟨by decide, ?_⟩
  have h1 : readReceipt recCAN = .ok (100, "CAN", "JOHN SMITH") := by rfl
  have h2 : isConduit "JOHN SMITH" = false := by decide
  have h3 : pySplit " " = [] := by decide
  have hna : ¬((100 : ℚ) ≤ 0) := by norm_num
  simp [calculate_big_money_percentage, processReceipts, processReceipt,
    h1, h2, h3, hna, pyLastIndex]

/-- Claim C4 (amended): with an empty candidate name the whole self-funding
check is skipped, including the `entity_type == 'CAN'` sub-condition, so a
positive-amount `CAN` record with no conduit match lands in `unknown`; and
with a candidate name containing at least one non-whitespace token, a record
whose uppercased contributor name contains the uppercased last token, or
whose entity type is `CAN`, is classified as `self_funding`.  (The amendment
restricts the second part to names with at least one token: on a non-empty
but whitespace-only name the code raises `IndexError` instead, see the
counterexample.) -/
theorem self_funding_guard_scope :
    (∀ (b : Breakdown) (r : Receipt) (a : ℚ) (n : String),
        readReceipt r = .ok (a, "CAN", n) → 0 < a → isConduit n = false →
        processReceipt "" b r = .ok { b with unknown := b.unknown + a }) ∧
      (∀ (name : String) (b : Breakdown) (r : Receipt) (a : ℚ)
          (e n tok : String),
        name ≠ "" → pyLastIndex (pySplit name) = .ok tok →
        readReceipt r = .ok (a, e, n) → 0 < a → isConduit n = false →
        (pyContains n (pyUpper tok) = true ∨ e = "CAN") →
        processReceipt name b r =
          .ok { b with self_funding := b.self_funding + a }) := by
  constructor
  · intro b r a n hr ha hc
    simp only [processReceipt, hr]
    rw [if_neg (not_le.mpr ha), if_neg (by simp [hc]), if_neg (by simp)]
    simp [classifyEntity]
  · intro name b r a e n tok hn htok hr ha hc hcond
    simp only [processReceipt, hr]
    rw [if_neg (not_le.mpr ha), if_neg (by simp [hc]), if_pos hn]
    simp only [htok]
    rw [if_pos hcond]

/-- Witness for the amended C4: a `CAN` record goes to `unknown` with no
candidate name, and a record whose contributor contains "WARREN" goes to
`self_funding` for candidate "Elizabeth Warren". -/
theorem self_funding_guard_scope_witness :
    processReceipt "" Breakdown.start recCAN =
        .ok { Breakdown.start with unknown := Breakdown.start.unknown + 100 } ∧
      processReceipt "Elizabeth Warren" Breakdown.start
          ⟨some (.vnum 2000), none, some (.vstr "Warren Elizabeth")⟩ =
        .ok { Breakdown.start with
          self_funding := Breakdown.start.self_funding + 2000 } :=
  ⟨self_funding_guard_scope.1 Breakdown.start recCAN 100 "JOHN SMITH"
      (by rfl) (by norm_num) (by decide),
    self_funding_guard_scope.2 "Elizabeth Warren" Breakdown.start
      ⟨some (.vnum 2000), none, some (.vstr "Warren Elizabeth")⟩ 2000 ""
      "WARREN ELIZABETH" "Warren" (by decide) (by rfl) (by rfl) (by norm_num)
      (by decide) (Or.inl (by decide))⟩

/-- Counterexample to C6 as stated: on an input whose `unknown` accumulator
is 100 (so the claim asserts the result reports the `unknown` category with
amount `100.00` and percentage `100.0`), the returned `breakdown` dict has
no `unknown` key at all — the source replaces it with
`grassroots_combined`. -/
theorem reported_breakdown_categories_cex :
    calculate_big_money_percentage [recXYZ] "" = .ok (buildResult bXYZ 1) ∧
      bXYZ.unknown = 100 ∧
      (buildResult bXYZ 1).breakdown.lookup "unknown" = none := by
  refine ⟨?_, rfl, ?_⟩
  · unfold calculate_big_money_percentage
    rw [recXYZ_processed]
    rfl
  · simp [buildResult, List.lookup]

/-- Claim C6 (amended): a successful result reports, for each of the eight
categories pacs, party_committees, other_candidates, organizations,
large_individual_donors, small_individual_donors, self_funding and conduits,
its amount rounded to 2 decimals and its percentage
`round(amount / total_raised * 100, 1)` computed against `total_raised`
(every percentage is `0` when `total_raised` is not positive); the ninth
internal category `unknown` is aggregated but not reported in the returned
breakdown. -/
theorem reported_breakdown_categories (receipts : List Receipt)
    (name : String) (b : Breakdown)
    (hb : processReceipts name Breakdown.start receipts = .ok b) :
    ∃ res, calculate_big_money_percentage receipts name = .ok res ∧
      res.breakdown.lookup "pacs" = some ⟨pyRound b.pacs 2,
        if b.totalRaised > 0 then pyRound (b.pacs / b.totalRaised * 100) 1
        else 0⟩ ∧
      res.breakdown.lookup "party_committees" =
        some ⟨pyRound b.party_committees 2,
        if b.totalRaised > 0 then
          pyRound (b.party_committees / b.totalRaised * 100) 1 else 0⟩ ∧
      res.breakdown.lookup "other_candidates" =
        some ⟨pyRound b.other_candidates 2,
        if b.totalRaised > 0 then
          pyRound (b.other_candidates / b.totalRaised * 100) 1 else 0⟩ ∧
      res.breakdown.lookup "organizations" = some ⟨pyRound b.organizations 2,
        if b.totalRaised > 0 then
          pyRound (b.organizations / b.totalRaised * 100) 1 else 0⟩ ∧
      res.breakdown.lookup "large_individual_donors" =
        some ⟨pyRound b.large_individual_donors 2,
        if b.totalRaised > 0 then
          pyRound (b.large_individual_donors / b.totalRaised * 100) 1
        else 0⟩ ∧
      res.breakdown.lookup "small_individual_donors" =
        some ⟨pyRound b.small_individual_donors 2,
        if b.totalRaised > 0 then
          pyRound (b.small_individual_donors / b.totalRaised * 100) 1
        else 0⟩ ∧
      res.breakdown.lookup "self_funding" = some ⟨pyRound b.self_funding 2,
        if b.totalRaised > 0 then
          pyRound (b.self_funding / b.totalRaised * 100) 1 else 0⟩ ∧
      res.breakdown.lookup "conduits" = some ⟨pyRound b.conduits 2,
        if b.totalRaised > 0 then
          pyRound (b.conduits / b.totalRaised * 100) 1 else 0⟩ ∧
      res.breakdown.lookup "unknown" = none := by
  refine ⟨buildResult b receipts.length, ?_, ?_⟩
  · unfold calculate_big_money_percentage
    rw [hb]
  · simp [buildResult, List.lookup]

/-- Witness for the amended C6 at a single 500-dollar PAC record. -/
theorem reported_breakdown_categories_witness :
    ∃ res, calculate_big_money_percentage [recPAC] "" = .ok res ∧
      res.breakdown.lookup "pacs" = some ⟨pyRound bPAC.pacs 2,
        if bPAC.totalRaised > 0 then
          pyRound (bPAC.pacs / bPAC.totalRaised * 100) 1 else 0⟩ ∧
      res.breakdown.lookup "party_committees" =
        some ⟨pyRound bPAC.party_committees 2,
        if bPAC.totalRaised > 0 then
          pyRound (bPAC.party_committees / bPAC.totalRaised * 100) 1
        else 0⟩ ∧
      res.breakdown.lookup "other_candidates" =
        some ⟨pyRound bPAC.other_candidates 2,
        if bPAC.totalRaised > 0 then
          pyRound (bPAC.other_candidates / bPAC.totalRaised * 100) 1
        else 0⟩ ∧
      res.breakdown.lookup "organizations" =
        some ⟨pyRound bPAC.organizations 2,
        if bPAC.totalRaised > 0 then
          pyRound (bPAC.organizations / bPAC.totalRaised * 100) 1 else 0⟩ ∧
      res.breakdown.lookup "large_individual_donors" =
        some ⟨pyRound bPAC.large_individual_donors 2,
        if bPAC.totalRaised > 0 then
          pyRound (bPAC.large_individual_donors / bPAC.totalRaised * 100) 1
        else 0⟩ ∧
      res.breakdown.lookup "small_individual_donors" =
        some ⟨pyRound bPAC.small_individual_donors 2,
        if bPAC.totalRaised > 0 then
          pyRound (bPAC.small_individual_donors / bPAC.totalRaised * 100) 1
        else 0⟩ ∧
      res.breakdown.lookup "self_funding" =
        some ⟨pyRound bPAC.self_funding 2,
        if bPAC.totalRaised > 0 then
          pyRound (bPAC.self_funding / bPAC.totalRaised * 100) 1 else 0⟩ ∧
      res.breakdown.lookup "conduits" = some ⟨pyRound bPAC.conduits 2,
        if bPAC.totalRaised > 0 then
          pyRound (bPAC.conduits / bPAC.totalRaised * 100) 1 else 0⟩ ∧
      res.breakdown.lookup "unknown" = none :=
  reported_breakdown_categories [recPAC] "" bPAC recPAC_processed

/-- Claim C7: for inputs whose readable record amounts are all non-negative,
a successful call returns a headline `big_money_percentage` in the closed
interval [0, 100]. -/
theorem big_money_percentage_bounds (receipts : List Receipt) (name : String)
    (res : AnalysisResult)
    (hnn : ∀ r ∈ receipts, ∀ a e n, readReceipt r = .ok (a, e, n) → 0 ≤ a)
    (hres : calculate_big_money_percentage receipts name = .ok res) :
    0 ≤ res.big_money_percentage ∧ res.big_money_percentage ≤ 100 := by
  unfold calculate_big_money_percentage at hres
  cases hp : processReceipts name Breakdown.start receipts with
  | error e => rw [hp] at hres; simp at hres
  | ok b =>
    rw [hp] at hres
    simp only [Except.ok.injEq] at hres
    subst hres
    have hbn : b.Nonneg :=
      (processReceipts_shape receipts Breakdown.start b hp).2 start_nonneg
    obtain ⟨n1, n2, n3, n4, n5, n6, n7, n8, n9⟩ := hbn
    have hfield : (buildResult b receipts.length).big_money_percentage =
        if b.totalRaised - b.self_funding > 0 then
          pyRound (b.bigMoney / (b.totalRaised - b.self_funding) * 100) 1
        else 0 := by
      simp only [buildResult]
    rw [hfield]
    by_cases hct : b.totalRaised - b.self_funding > 0
    · rw [if_pos hct]
      have hbig0 : 0 ≤ b.bigMoney := by
        simp only [Breakdown.bigMoney]
        linarith
      have hbigle : b.bigMoney ≤ b.totalRaised - b.self_funding := by
        simp only [Breakdown.bigMoney, Breakdown.totalRaised]
        linarith
      have hq0 : 0 ≤ b.bigMoney / (b.totalRaised - b.self_funding) * 100 := by
        have hdiv := div_nonneg hbig0 hct.le
        linarith
      have hq100 : b.bigMoney / (b.totalRaised - b.self_funding) * 100 ≤ 100 := by
        have hr1 : b.bigMoney / (b.totalRaised - b.self_funding) ≤ 1 :=
          (div_le_one hct).mpr hbigle
        linarith
      exact pyRound1_bounds _ hq0 hq100
    · rw [if_neg hct]
      norm_num

/-- Witness for C7 on the empty receipts list. -/
theorem big_money_percentage_bounds_witness :
    0 ≤ (buildResult Breakdown.start 0).big_money_percentage ∧
      (buildResult Breakdown.start 0).big_money_percentage ≤ 100 :=
  big_money_percentage_bounds [] "" (buildResult Breakdown.start 0)
    (fun r hr => absurd hr (by simp)) rfl

/-- Counterexample to C8 as stated: a record whose
`contribution_receipt_amount` key holds `None` does not default to zero —
`float(None)` raises `TypeError`, so the call fails instead of succeeding. -/
theorem engine_totality_cex :
    calculate_big_money_percentage [recNullAmount] "" =
      .error "TypeError: float() argument must be a string or a real number" := by
  rfl

/-- Claim C8 (amended): the engine never raises when every present field is
well typed — i.e. when the three reads of each record succeed — and the
candidate name is empty or has at least one token; a record with all three
keys missing reads as amount `0`, entity type `""` and contributor name
`""`; and any unrecognised or empty entity type is absorbed into the
`unknown` bucket by the dispatch.  (The amendment drops the original
"malformed amounts default to zero" and "total over arbitrary dictionaries":
a present but non-numeric amount or a non-string name field makes the code
raise, see the counterexample.) -/
theorem engine_totality_well_typed (receipts : List Receipt) (name : String)
    (hname : name = "" ∨ pySplit name ≠ [])
    (hwt : ∀ r ∈ receipts, ∃ x, readReceipt r = .ok x) :
    (∃ res, calculate_big_money_percentage receipts name = .ok res) ∧
      readReceipt ({} : Receipt) = .ok (0, "", "") ∧
      (∀ (b : Breakdown) (a : ℚ) (e : String),
        e ∉ (["PAC", "PTY", "CCM", "ORG", "IND"] : List String) →
        classifyEntity b e a = { b with unknown := b.unknown + a }) := by
  refine ⟨?_, rfl, ?_⟩
  · obtain ⟨b, hbok⟩ := processReceipts_ok hname receipts Breakdown.start hwt
    refine ⟨buildResult b receipts.length, ?_⟩
    unfold calculate_big_money_percentage
    rw [hbok]
  · intro b a e he
    simp only [List.mem_cons, List.not_mem_nil, or_false] at he
    push_neg at he
    obtain ⟨h1, h2, h3, h4, h5⟩ := he
    simp [classifyEntity, h1, h2, h3, h4, h5]

/-- Witness for the amended C8: a record with all keys missing is processed
without error. -/
theorem engine_totality_well_typed_witness :
    (∃ res, calculate_big_money_percentage [({} : Receipt)] "" = .ok res) ∧
      readReceipt ({} : Receipt) = .ok (0, "", "") ∧
      (∀ (b : Breakdown) (a : ℚ) (e : String),
        e ∉ (["PAC", "PTY", "CCM", "ORG", "IND"] : List String) →
        classifyEntity b e a = { b with unknown := b.unknown + a }) :=
  engine_totality_well_typed [({} : Receipt)] "" (Or.inl rfl)
    (fun r hr => by
      simp only [List.mem_singleton] at hr
      subst hr
      exact ⟨(0, "", ""), rfl⟩)

/-- Claim C9: the paging loop of `get_committee_receipts` turns a page-level
transport failure into a partial result, never an error: when `fetch` fails
on the current page the loop returns exactly the records accumulated so
far; a successful non-final page appends its `results` and continues (so the
accumulator is precisely the records of the pages fetched so far); and a
failure on the very first page yields the empty list.  The loop's return
type is a plain list, so no exception can propagate to the caller. -/
theorem committee_receipts_partial_on_failure
    (fetch : ℕ → Except String Page) (max_pages : Option ℕ) :
    (∀ (fuel page : ℕ) (acc : List Receipt) (e : String),
        fetch page = .error e →
        get_committee_receipts_loop fetch max_pages fuel page acc = acc) ∧
      (∀ (fuel page : ℕ) (acc : List Receipt) (data : Page),
        ¬(truthyMaxPages max_pages = true ∧ page > max_pages.getD 0) →
        fetch page = .ok data → data.results ≠ [] → page < data.pages →
        get_committee_receipts_loop fetch max_pages (fuel + 1) page acc =
          get_committee_receipts_loop fetch max_pages fuel (page + 1)
            (acc ++ data.results)) ∧
      (∀ (fuel : ℕ) (e : String), fetch 1 = .error e →
        get_committee_receipts fetch max_pages fuel = []) := by
  have herr : ∀ (fuel page : ℕ) (acc : List Receipt) (e : String),
      fetch page = .error e →
      get_committee_receipts_loop fetch max_pages fuel page acc = acc := by
    intro fuel page acc e hf
    cases fuel with
    | zero => rfl
    | succ fuel =>
      simp only [get_committee_receipts_loop]
      by_cases hcap : truthyMaxPages max_pages = true ∧ page > max_pages.getD 0
      · rw [if_pos hcap]
      · rw [if_neg hcap]
        simp only [hf]
  refine ⟨herr, ?_, ?_⟩
  · intro fuel page acc data hcap hf hres hlt
    simp only [get_committee_receipts_loop]
    rw [if_neg hcap]
    simp only [hf]
    rw [if_neg hres, if_neg (not_le.mpr hlt)]
  · intro fuel e hf
    exact herr fuel 1 [] e hf

/-- A transport stub for the C9 witness: page 1 succeeds with one record
out of five pages, every later page fails. -/
def fetchW : ℕ → Except String Page :=
  fun p => if p = 1 then .ok ⟨[recPAC], 5⟩ else .error "Timeout"

/-- Witness for C9: after page 1 succeeded, the failure on page 2 returns
the accumulated records unchanged. -/
theorem committee_receipts_partial_on_failure_witness :
    get_committee_receipts_loop fetchW none 3 2 [recPAC] = [recPAC] :=
  (committee_receipts_partial_on_failure fetchW none).1 3 2 [recPAC]
    "Timeout" rfl

end PeoplesScorecard
